import Mathlib

/-!
Verification of the swiftsimio visualisation / unit specification.

The rasterization engine, region mapper and field dispatcher are modelled
from the specification (the repository sources available here contain only
their tests and the unit-field tables); `generate_units` is translated
directly from `swiftsimio/metadata/unit/unit_fields.py`.  All arithmetic is
carried out exactly over the rationals.
-/

namespace Swiftsimio

/-- Modelled from the spec: the kernel-gamma support radius multiplier
(a fixed positive constant converting a smoothing length into the full
kernel support radius). -/
def kernel_gamma : ℚ := 9 / 5

/-- Modelled from the spec: a compact-support smoothing kernel, evaluated as
a function of the squared normalized distance; positive on `[0,1)` and zero
for normalized distances `≥ 1`. -/
def kernelW (q2 : ℚ) : ℚ := if q2 < 1 then (1 - q2) ^ 3 else 0

theorem kernelW_nonneg (q2 : ℚ) : 0 ≤ kernelW q2 := by
  unfold kernelW
  split
  · have : 0 ≤ 1 - q2 := by linarith
    positivity
  · exact le_refl 0

theorem kernelW_pos (q2 : ℚ) (h0 : 0 ≤ q2) (h1 : q2 < 1) : 0 < kernelW q2 := by
  unfold kernelW
  rw [if_pos h1]
  have : 0 < 1 - q2 := by linarith
  positivity

/-- Modelled from the spec: generic kernel-weighted deposition of a total
amount onto the cells of a finite grid.  Cells whose squared distance to the
particle is below the squared support radius receive a kernel-weighted share,
scale-normalized so that the whole amount is deposited; when no cell centre
falls inside the support, the amount is deposited degenerately onto the cells
selected by the fallback predicate (the nearest cell, when the particle is
inside the grid). -/
def coveredG {C : Type} [Fintype C] [DecidableEq C] (d2 : C → ℚ) (H2 : ℚ) : Finset C :=
  Finset.univ.filter (fun c => d2 c < H2)

def ksumG {C : Type} [Fintype C] [DecidableEq C] (d2 : C → ℚ) (H2 : ℚ) : ℚ :=
  ∑ c in coveredG d2 H2, kernelW (d2 c / H2)

def depositG {C : Type} [Fintype C] [DecidableEq C] (d2 : C → ℚ) (H2 : ℚ) (amount : ℚ)
    (fallback : C → Prop) [DecidablePred fallback] (c : C) : ℚ :=
  if (coveredG d2 H2).Nonempty then
    (if c ∈ coveredG d2 H2 then amount * kernelW (d2 c / H2) / ksumG d2 H2 else 0)
  else
    (if fallback c then amount else 0)

theorem ksumG_pos {C : Type} [Fintype C] [DecidableEq C] (d2 : C → ℚ) (H2 : ℚ)
    (hd2 : ∀ c, 0 ≤ d2 c) (hne : (coveredG d2 H2).Nonempty) : 0 < ksumG d2 H2 := by
  apply Finset.sum_pos _ hne
  intro c hc
  have hlt : d2 c < H2 := by
    have := Finset.mem_filter.mp hc
    exact this.2
  have hH2 : 0 < H2 := lt_of_le_of_lt (hd2 c) hlt
  apply kernelW_pos
  · exact div_nonneg (hd2 c) (le_of_lt hH2)
  · exact (div_lt_one hH2).mpr hlt

theorem depositG_sum {C : Type} [Fintype C] [DecidableEq C] (d2 : C → ℚ) (H2 : ℚ)
    (amount : ℚ) (fallback : C → Prop) [DecidablePred fallback]
    (hd2 : ∀ c, 0 ≤ d2 c) (huniq : ∃! c, fallback c) :
    ∑ c, depositG d2 H2 amount fallback c = amount := by
  by_cases hne : (coveredG d2 H2).Nonempty
  · have hK := ksumG_pos d2 H2 hd2 hne
    simp only [depositG, if_pos hne]
    rw [Finset.sum_ite_mem, Finset.univ_inter]
    rw [← Finset.sum_div, ← Finset.mul_sum, ← ksumG]
    rw [mul_div_assoc, div_self (ne_of_gt hK), mul_one]
  · simp only [depositG, if_neg hne]
    obtain ⟨c₀, hc₀, huq⟩ := huniq
    have hiff : ∀ c, fallback c ↔ c = c₀ := by
      intro c
      constructor
      · intro h
        exact huq c h
      · intro h
        subst h
        exact hc₀
    simp only [hiff]
    rw [Finset.sum_ite_eq' Finset.univ c₀ (fun _ => amount)]
    simp

theorem depositG_zero {C : Type} [Fintype C] [DecidableEq C] (d2 : C → ℚ) (H2 : ℚ)
    (amount : ℚ) (fallback : C → Prop) [DecidablePred fallback]
    (hcov : ∀ c, ¬ d2 c < H2) (hfb : ∀ c, ¬ fallback c) (c : C) :
    depositG d2 H2 amount fallback c = 0 := by
  have hempty : ¬ (coveredG d2 H2).Nonempty := by
    intro h
    obtain ⟨c₁, hc₁⟩ := h
    exact hcov c₁ (Finset.mem_filter.mp hc₁).2
  simp only [depositG, if_neg hempty, if_neg (hfb c)]

/-- Modelled from the spec: splitting a particle list into contiguous chunks
(of size `n + 1`), the partitioning used by the thread-parallel variants. -/
def chunks {P : Type} (n : ℕ) : List P → List (List P)
  | [] => []
  | p :: ps => ((p :: ps).take (n + 1)) :: chunks n ((p :: ps).drop (n + 1))
termination_by ps => ps.length
decreasing_by
  simp only [List.length_drop, List.length_cons]
  omega

theorem chunks_join {P : Type} (n : ℕ) : ∀ ps : List P, (chunks n ps).flatten = ps
  | [] => by rw [chunks]; rfl
  | p :: ps => by
    rw [chunks, List.flatten_cons, chunks_join n ((p :: ps).drop (n + 1))]
    exact List.take_append_drop _ _
termination_by ps => ps.length
decreasing_by
  simp only [List.length_drop, List.length_cons]
  omega

/-- Modelled from the spec: the reference serial rasterization loop — iterate
over the particles, accumulating each particle's contribution into the
zero-initialized grid. -/
def rasterize {P C : Type} (f : P → C → ℚ) (ps : List P) : C → ℚ :=
  ps.foldl (fun g p => fun c => g c + f p c) (fun _ => 0)

/-- Modelled from the spec: the parallel rasterization variant — partition the
particles into chunks, rasterize each chunk into a thread-local grid, and
merge the per-chunk grids by summation. -/
def rasterize_par {P C : Type} (f : P → C → ℚ) (n : ℕ) (ps : List P) : C → ℚ :=
  fun c => ((chunks n ps).map (fun b => rasterize f b c)).sum

theorem rasterize_foldl {P C : Type} (f : P → C → ℚ) (ps : List P) (g : C → ℚ) (c : C) :
    (ps.foldl (fun g p => fun c => g c + f p c) g) c
      = g c + (ps.map (fun p => f p c)).sum := by
  induction ps generalizing g with
  | nil => simp
  | cons p ps ih =>
    simp only [List.foldl_cons, List.map_cons, List.sum_cons]
    rw [ih]
    ring

theorem rasterize_apply {P C : Type} (f : P → C → ℚ) (ps : List P) (c : C) :
    rasterize f ps c = (ps.map (fun p => f p c)).sum := by
  unfold rasterize
  rw [rasterize_foldl]
  simp

theorem sum_map_join {P : Type} (fc : P → ℚ) (l : List (List P)) :
    (l.map (fun b => (b.map fc).sum)).sum = (l.flatten.map fc).sum := by
  induction l with
  | nil => simp
  | cons b l ih => simp [List.flatten_cons, ih]

theorem rasterize_par_eq {P C : Type} (f : P → C → ℚ) (n : ℕ) (ps : List P) :
    rasterize_par f n ps = rasterize f ps := by
  funext c
  unfold rasterize_par
  rw [rasterize_apply]
  have h1 : ∀ b : List P, rasterize f b c = (b.map (fun p => f p c)).sum := by
    intro b
    exact rasterize_apply f b c
  calc ((chunks n ps).map (fun b => rasterize f b c)).sum
      = ((chunks n ps).map (fun b => (b.map (fun p => f p c)).sum)).sum := by
        apply congrArg
        exact List.map_congr_left (fun b _ => h1 b)
    _ = (((chunks n ps).flatten).map (fun p => f p c)).sum := sum_map_join _ _
    _ = (ps.map (fun p => f p c)).sum := by rw [chunks_join]

theorem rasterize_cons {P C : Type} (f : P → C → ℚ) (p : P) (ps : List P) (c : C) :
    rasterize f (p :: ps) c = f p c + rasterize f ps c := by
  rw [rasterize_apply, rasterize_apply]
  simp

theorem rasterize_total {P C : Type} [Fintype C] (f : P → C → ℚ) (ps : List P) :
    ∑ c, rasterize f ps c = (ps.map (fun p => ∑ c, f p c)).sum := by
  induction ps with
  | nil => simp [rasterize_apply]
  | cons p ps ih =>
    rw [Finset.sum_congr rfl (fun c _ => rasterize_cons f p ps c),
      Finset.sum_add_distrib, ih]
    simp

/-- Modelled from the spec: a 2D particle — a position, a quantity weight and
a compact-support smoothing length (one entry of the parallel input arrays
`x`, `y`, `m`, `h` of the projection backends). -/
structure Particle2 where
  x : ℚ
  y : ℚ
  m : ℚ
  h : ℚ
deriving DecidableEq

/-- Modelled from the spec: a 3D particle, as consumed by the slice and
volume-render backends. -/
structure Particle3 where
  x : ℚ
  y : ℚ
  z : ℚ
  m : ℚ
  h : ℚ
deriving DecidableEq

/-- A 2D pixel grid of the given resolution. -/
def Grid2 (R : ℕ) : Type := Fin R × Fin R → ℚ

/-- A 3D voxel grid of the given resolution. -/
def Grid3 (R : ℕ) : Type := Fin R × Fin R × Fin R → ℚ

/-- Kernel support radius of a 2D particle, in pixel space. -/
def support2 (R : ℕ) (p : Particle2) : ℚ := kernel_gamma * p.h * R

/-- Squared pixel-space distance from the centre of a grid cell to a 2D
particle. -/
def cellDist2 (R : ℕ) (p : Particle2) (c : Fin R × Fin R) : ℚ :=
  ((c.1.val : ℚ) + 1 / 2 - p.x * R) ^ 2 + ((c.2.val : ℚ) + 1 / 2 - p.y * R) ^ 2

/-- The 2D particle position lies inside the pixel grid `[0,R) × [0,R)`. -/
def inGrid2 (R : ℕ) (p : Particle2) : Prop :=
  0 ≤ p.x * R ∧ p.x * R < R ∧ 0 ≤ p.y * R ∧ p.y * R < R

instance (R : ℕ) (p : Particle2) : Decidable (inGrid2 R p) := by
  unfold inGrid2
  infer_instance

/-- The grid cell nearest to the 2D particle position. -/
def isNearest2 (R : ℕ) (p : Particle2) (c : Fin R × Fin R) : Prop :=
  (c.1.val : ℤ) = ⌊p.x * (R : ℚ)⌋ ∧ (c.2.val : ℤ) = ⌊p.y * (R : ℚ)⌋

instance (R : ℕ) (p : Particle2) (c : Fin R × Fin R) : Decidable (isNearest2 R p c) := by
  unfold isNearest2
  infer_instance

/-- Modelled from the spec: the contribution of one particle to one pixel of
the 2D projection grid — kernel-weighted deposition of the particle's whole
weight (scale-normalized by `R²` so that `sum(grid)/R²` recovers the summed
weights), with degenerate nearest-cell deposition for sub-cell footprints of
in-grid particles, and no contribution for particles whose footprint misses
the grid. -/
def contrib2 (R : ℕ) (p : Particle2) : Fin R × Fin R → ℚ :=
  depositG (cellDist2 R p) (support2 R p ^ 2) (p.m * (R : ℚ) ^ 2)
    (fun c => inGrid2 R p ∧ isNearest2 R p c)

/-- Modelled from the spec: the reference (serial) 2D projection backend. -/
def scatter (ps : List Particle2) (R : ℕ) : Grid2 R :=
  rasterize (contrib2 R) ps

/-- Modelled from the spec: the parallel 2D projection backend — thread-local
grids over a particle partition, merged by summation. -/
def scatter_parallel (nt : ℕ) (ps : List Particle2) (R : ℕ) : Grid2 R :=
  rasterize_par (contrib2 R) nt ps

/-- Modelled from the spec: the histogram fallback backend — no kernel, each
in-grid particle deposits its whole weight into the cell containing it. -/
def contribHist (R : ℕ) (p : Particle2) (c : Fin R × Fin R) : ℚ :=
  if inGrid2 R p ∧ isNearest2 R p c then p.m * (R : ℚ) ^ 2 else 0

def histogram_scatter (ps : List Particle2) (R : ℕ) : Grid2 R :=
  rasterize (contribHist R) ps

/-- Modelled from the spec: the error taxonomy — frame incompatibility,
unavailable capability (no GPU), and configuration errors are distinct kinds. -/
inductive VisError : Type where
  | frameIncompat : String → VisError
  | unavailableCapability : VisError
  | configError : String → VisError
deriving DecidableEq

/-- Modelled from the spec: the fixed registry of named projection backends. -/
inductive BackendName : Type where
  | reference : BackendName
  | parallel : BackendName
  | gpu : BackendName
  | histogram : BackendName
deriving DecidableEq

/-- Modelled from the spec: dispatch over the backend registry.  The GPU
backend is capability-gated: when no compatible device is present the call
fails with the unavailable-capability error before any computation; otherwise
it fulfils the same contract as the reference backend. -/
def backends (gpuAvail : Bool) (nt : ℕ) :
    BackendName → List Particle2 → (R : ℕ) → Except VisError (Grid2 R)
  | BackendName.reference => fun ps R => Except.ok (scatter ps R)
  | BackendName.parallel => fun ps R => Except.ok (scatter_parallel nt ps R)
  | BackendName.gpu => fun ps R =>
      if gpuAvail then Except.ok (scatter ps R)
      else Except.error VisError.unavailableCapability
  | BackendName.histogram => fun ps R => Except.ok (histogram_scatter ps R)

/-- Whether a rasterization or render call succeeded. -/
def isOk {ε α : Type} : Except ε α → Bool
  | Except.ok _ => true
  | Except.error _ => false

/-- Modelled from the spec: the catch-and-skip discipline of batch-testing
callers — an unavailable-capability failure is skipped, every other outcome
(success or computation failure) is kept. -/
def skipUnavailable {α : Type} : Except VisError α → Option (Except VisError α)
  | Except.error VisError.unavailableCapability => none
  | r => some r

/-- Kernel support radius of a 3D particle, in pixel space. -/
def support3 (R : ℕ) (p : Particle3) : ℚ := kernel_gamma * p.h * R

/-- Squared pixel-space distance from the centre of a voxel to a 3D particle. -/
def cellDist3 (R : ℕ) (p : Particle3) (c : Fin R × Fin R × Fin R) : ℚ :=
  ((c.1.val : ℚ) + 1 / 2 - p.x * R) ^ 2 + ((c.2.1.val : ℚ) + 1 / 2 - p.y * R) ^ 2
    + ((c.2.2.val : ℚ) + 1 / 2 - p.z * R) ^ 2

def inGrid3 (R : ℕ) (p : Particle3) : Prop :=
  0 ≤ p.x * R ∧ p.x * R < R ∧ 0 ≤ p.y * R ∧ p.y * R < R ∧ 0 ≤ p.z * R ∧ p.z * R < R

instance (R : ℕ) (p : Particle3) : Decidable (inGrid3 R p) := by
  unfold inGrid3
  infer_instance

def isNearest3 (R : ℕ) (p : Particle3) (c : Fin R × Fin R × Fin R) : Prop :=
  (c.1.val : ℤ) = ⌊p.x * (R : ℚ)⌋ ∧ (c.2.1.val : ℤ) = ⌊p.y * (R : ℚ)⌋
    ∧ (c.2.2.val : ℤ) = ⌊p.z * (R : ℚ)⌋

instance (R : ℕ) (p : Particle3) (c : Fin R × Fin R × Fin R) :
    Decidable (isNearest3 R p c) := by
  unfold isNearest3
  infer_instance

/-- Modelled from the spec: the contribution of one particle to one voxel of
the 3D volume-render grid (scale-normalized by `R³`). -/
def contrib3 (R : ℕ) (p : Particle3) : Fin R × Fin R × Fin R → ℚ :=
  depositG (cellDist3 R p) (support3 R p ^ 2) (p.m * (R : ℚ) ^ 3)
    (fun c => inGrid3 R p ∧ isNearest3 R p c)

/-- Modelled from the spec: the reference (serial) volume-render backend. -/
def volume_scatter (ps : List Particle3) (R : ℕ) : Grid3 R :=
  rasterize (contrib3 R) ps

/-- Modelled from the spec: the parallel volume-render backend. -/
def volume_scatter_parallel (nt : ℕ) (ps : List Particle3) (R : ℕ) : Grid3 R :=
  rasterize_par (contrib3 R) nt ps

/-- Squared pixel-space distance of a 3D particle to the centre of a pixel of
the slice plane: planar distance in the pixel grid combined with the depth
distance to the slicing z-plane. -/
def sliceDist2 (R : ℕ) (zs : ℚ) (p : Particle3) (c : Fin R × Fin R) : ℚ :=
  ((c.1.val : ℚ) + 1 / 2 - p.x * R) ^ 2 + ((c.2.val : ℚ) + 1 / 2 - p.y * R) ^ 2
    + ((p.z - zs) * R) ^ 2

def inGridS (R : ℕ) (p : Particle3) : Prop :=
  0 ≤ p.x * R ∧ p.x * R < R ∧ 0 ≤ p.y * R ∧ p.y * R < R

instance (R : ℕ) (p : Particle3) : Decidable (inGridS R p) := by
  unfold inGridS
  infer_instance

def isNearestS (R : ℕ) (p : Particle3) (c : Fin R × Fin R) : Prop :=
  (c.1.val : ℤ) = ⌊p.x * (R : ℚ)⌋ ∧ (c.2.val : ℤ) = ⌊p.y * (R : ℚ)⌋

instance (R : ℕ) (p : Particle3) (c : Fin R × Fin R) : Decidable (isNearestS R p c) := by
  unfold isNearestS
  infer_instance

/-- Modelled from the spec: the contribution of one particle to one pixel of
the 2D slice grid — only particles whose kernel support intersects the slicing
z-plane contribute, with the kernel evaluated at the combined planar and depth
distance and volume (`R³`) normalization. -/
def contribS (R : ℕ) (zs : ℚ) (p : Particle3) : Fin R × Fin R → ℚ :=
  depositG (sliceDist2 R zs p) (support3 R p ^ 2) (p.m * (R : ℚ) ^ 3)
    (fun c => ((p.z - zs) * R) ^ 2 < support3 R p ^ 2
      ∧ inGridS R p ∧ isNearestS R p c)

/-- Modelled from the spec: the reference (serial) slice backend. -/
def slice_scatter (ps : List Particle3) (zs : ℚ) (R : ℕ) : Grid2 R :=
  rasterize (contribS R zs) ps

/-- Modelled from the spec: the parallel slice backend. -/
def slice_scatter_parallel (nt : ℕ) (ps : List Particle3) (zs : ℚ) (R : ℕ) : Grid2 R :=
  rasterize_par (contribS R zs) nt ps

/-- For a coordinate inside `[0,R)` there is exactly one admissible cell
index along that axis, the floor of the coordinate. -/
theorem floor_fin (R : ℕ) (v : ℚ) (h0 : 0 ≤ v) (h1 : v < R) :
    ∃ i : Fin R, (i.val : ℤ) = ⌊v⌋ := by
  have ha : 0 ≤ ⌊v⌋ := Int.floor_nonneg.mpr h0
  have hb : ⌊v⌋ < (R : ℤ) := by
    rw [Int.floor_lt]
    exact_mod_cast h1
  refine ⟨⟨⌊v⌋.toNat, by omega⟩, ?_⟩
  simp [Int.toNat_of_nonneg ha]

theorem exists_unique_nearest2 (R : ℕ) (p : Particle2) (hin : inGrid2 R p) :
    ∃! c : Fin R × Fin R, inGrid2 R p ∧ isNearest2 R p c := by
  obtain ⟨h0x, h1x, h0y, h1y⟩ := hin
  obtain ⟨ix, hix⟩ := floor_fin R (p.x * R) h0x h1x
  obtain ⟨iy, hiy⟩ := floor_fin R (p.y * R) h0y h1y
  refine ⟨(ix, iy), ⟨⟨h0x, h1x, h0y, h1y⟩, hix, hiy⟩, ?_⟩
  rintro ⟨c1, c2⟩ ⟨-, hc1, hc2⟩
  have e1 : c1 = ix := by
    apply Fin.ext
    have : (c1.val : ℤ) = (ix.val : ℤ) := by rw [hc1, hix]
    exact_mod_cast this
  have e2 : c2 = iy := by
    apply Fin.ext
    have : (c2.val : ℤ) = (iy.val : ℤ) := by rw [hc2, hiy]
    exact_mod_cast this
  rw [e1, e2]

/-- An in-grid particle deposits exactly its whole (scale-normalized) weight
onto the 2D projection grid. -/
theorem contrib2_sum (R : ℕ) (p : Particle2) (hin : inGrid2 R p) :
    ∑ c, contrib2 R p c = p.m * (R : ℚ) ^ 2 := by
  unfold contrib2
  apply depositG_sum
  · intro c
    unfold cellDist2
    positivity
  · exact exists_unique_nearest2 R p hin

/-- Modelled from the spec: the particle's kernel footprint lies entirely
within the pixel grid domain `[0,R)²`. -/
def footprintWithin2 (R : ℕ) (p : Particle2) : Prop :=
  0 ≤ p.x * R - support2 R p ∧ p.x * R + support2 R p ≤ R
    ∧ 0 ≤ p.y * R - support2 R p ∧ p.y * R + support2 R p ≤ R

instance (R : ℕ) (p : Particle2) : Decidable (footprintWithin2 R p) := by
  unfold footprintWithin2
  infer_instance

theorem footprintWithin2_inGrid2 (R : ℕ) (p : Particle2) (hh : 0 < p.h) (hR : 0 < R)
    (hfp : footprintWithin2 R p) : inGrid2 R p := by
  obtain ⟨hx0, hx1, hy0, hy1⟩ := hfp
  have hRq : (0 : ℚ) < R := by exact_mod_cast hR
  have hs : 0 < support2 R p := by
    unfold support2 kernel_gamma
    positivity
  exact ⟨by linarith, by linarith, by linarith, by linarith⟩

theorem map_sum_mul (K : ℚ) (l : List Particle2) :
    (l.map (fun p => p.m * K)).sum = K * (l.map Particle2.m).sum := by
  induction l with
  | nil => simp
  | cons p l ih =>
    simp only [List.map_cons, List.sum_cons, ih]
    ring

/-- C1: for every identical input, the parallel rasterization backend
produces a grid element-wise equal to the grid produced by the serial
backend — exactly equal over exact rational arithmetic, hence within any
floating-point tolerance — for each of the projection, slice and
volume-render operations. -/
theorem serial_parallel_equivalence (nt R : ℕ) (ps2 : List Particle2)
    (ps3 : List Particle3) (zs : ℚ) :
    scatter_parallel nt ps2 R = scatter ps2 R
      ∧ slice_scatter_parallel nt ps3 zs R = slice_scatter ps3 zs R
      ∧ volume_scatter_parallel nt ps3 R = volume_scatter ps3 R :=
  ⟨rasterize_par_eq _ _ _, rasterize_par_eq _ _ _, rasterize_par_eq _ _ _⟩

/-- C2: for every particle set with positive smoothing lengths whose kernel
footprints lie entirely within the grid domain, and every tested resolution
`R ∈ {8,…,512}`, the 2D projection backend conserves mass:
`sum(grid)/R²` is within 5% relative tolerance of `sum(weights)` (the model
deposits mass exactly, so the deviation is zero). -/
theorem scatter_mass_conservation (ps : List Particle2) (R : ℕ)
    (hres : R ∈ [8, 16, 32, 64, 128, 256, 512])
    (hh : ∀ p ∈ ps, 0 < p.h)
    (hfp : ∀ p ∈ ps, footprintWithin2 R p) :
    |(∑ c, scatter ps R c) / (R : ℚ) ^ 2 - (ps.map Particle2.m).sum|
      ≤ (5 / 100) * |(ps.map Particle2.m).sum| := by
  have hR : 0 < R := by fin_cases hres <;> norm_num
  have htotal : ∑ c, scatter ps R c = (R : ℚ) ^ 2 * (ps.map Particle2.m).sum := by
    unfold scatter
    rw [rasterize_total]
    have hmap : ps.map (fun p => ∑ c, contrib2 R p c)
        = ps.map (fun p => p.m * (R : ℚ) ^ 2) := by
      apply List.map_congr_left
      intro p hp
      exact contrib2_sum R p (footprintWithin2_inGrid2 R p (hh p hp) hR (hfp p hp))
    rw [hmap, map_sum_mul]
  have hRq : (0 : ℚ) < (R : ℚ) ^ 2 := by
    have : (0 : ℚ) < R := by exact_mod_cast hR
    positivity
  rw [htotal, mul_comm, mul_div_assoc, div_self (ne_of_gt hRq), mul_one, sub_self,
    abs_zero]
  positivity

def witnessParticle2 : Particle2 := ⟨1 / 2, 1 / 2, 1, 1 / 10⟩

theorem witnessParticle2_h : ∀ p ∈ [witnessParticle2], 0 < p.h := by
  intro p hp
  rw [List.mem_singleton] at hp
  subst hp
  norm_num [witnessParticle2]

theorem witnessParticle2_fp : ∀ p ∈ [witnessParticle2], footprintWithin2 8 p := by
  intro p hp
  rw [List.mem_singleton] at hp
  subst hp
  unfold footprintWithin2 support2 kernel_gamma witnessParticle2
  norm_num

theorem scatter_mass_conservation_witness :
    ((8 : ℕ) ∈ [8, 16, 32, 64, 128, 256, 512]
      ∧ (∀ p ∈ [witnessParticle2], 0 < p.h)
      ∧ (∀ p ∈ [witnessParticle2], footprintWithin2 8 p))
    ∧ |(∑ c, scatter [witnessParticle2] 8 c) / (8 : ℚ) ^ 2
          - ([witnessParticle2].map Particle2.m).sum|
        ≤ (5 / 100) * |([witnessParticle2].map Particle2.m).sum| :=
  ⟨⟨by decide, witnessParticle2_h, witnessParticle2_fp⟩,
    scatter_mass_conservation [witnessParticle2] 8 (by decide) witnessParticle2_h
      witnessParticle2_fp⟩

/-- Modelled from the spec: the particle's coordinates and kernel footprint
lie entirely outside the pixel grid domain `[0,R)` — along some axis the
whole support interval is below `0` or above `R`. -/
def outsideGrid2 (R : ℕ) (p : Particle2) : Prop :=
  p.x * R + support2 R p ≤ 0 ∨ (R : ℚ) ≤ p.x * R - support2 R p
    ∨ p.y * R + support2 R p ≤ 0 ∨ (R : ℚ) ≤ p.y * R - support2 R p

instance (R : ℕ) (p : Particle2) : Decidable (outsideGrid2 R p) := by
  unfold outsideGrid2
  infer_instance

/-- If the whole support interval along one axis misses `[0,R)`, the squared
support radius is below the squared distance to any point of `(0,R)` along
that axis. -/
theorem axis_far (v s cx Rq : ℚ) (hs : 0 < s) (hcx0 : 0 < cx) (hcxR : cx < Rq)
    (h : v + s ≤ 0 ∨ Rq ≤ v - s) : s ^ 2 < (cx - v) ^ 2 := by
  rcases h with h | h
  · have h1 : 0 < cx - v - s := by linarith
    have h2 : 0 < cx - v + s := by linarith
    nlinarith [mul_pos h1 h2]
  · have h1 : 0 < v - cx - s := by linarith
    have h2 : 0 < v - cx + s := by linarith
    nlinarith [mul_pos h1 h2]

theorem cell_center_bounds (R : ℕ) (i : Fin R) :
    0 < (i.val : ℚ) + 1 / 2 ∧ (i.val : ℚ) + 1 / 2 < R := by
  constructor
  · positivity
  · have : (i.val : ℚ) + 1 ≤ R := by exact_mod_cast i.isLt
    linarith

theorem outside_not_covered2 (R : ℕ) (p : Particle2) (hh : 0 < p.h) (hR : 0 < R)
    (hout : outsideGrid2 R p) (c : Fin R × Fin R) :
    ¬ cellDist2 R p c < support2 R p ^ 2 := by
  have hRq : (0 : ℚ) < R := by exact_mod_cast hR
  have hs : 0 < support2 R p := by
    unfold support2 kernel_gamma
    positivity
  obtain ⟨hcx0, hcxR⟩ := cell_center_bounds R c.1
  obtain ⟨hcy0, hcyR⟩ := cell_center_bounds R c.2
  unfold cellDist2
  rcases hout with h | h | h | h
  · have := axis_far (p.x * R) (support2 R p) ((c.1.val : ℚ) + 1 / 2) R hs hcx0 hcxR
      (Or.inl h)
    nlinarith [sq_nonneg ((c.2.val : ℚ) + 1 / 2 - p.y * R)]
  · have := axis_far (p.x * R) (support2 R p) ((c.1.val : ℚ) + 1 / 2) R hs hcx0 hcxR
      (Or.inr h)
    nlinarith [sq_nonneg ((c.2.val : ℚ) + 1 / 2 - p.y * R)]
  · have := axis_far (p.y * R) (support2 R p) ((c.2.val : ℚ) + 1 / 2) R hs hcy0 hcyR
      (Or.inl h)
    nlinarith [sq_nonneg ((c.1.val : ℚ) + 1 / 2 - p.x * R)]
  · have := axis_far (p.y * R) (support2 R p) ((c.2.val : ℚ) + 1 / 2) R hs hcy0 hcyR
      (Or.inr h)
    nlinarith [sq_nonneg ((c.1.val : ℚ) + 1 / 2 - p.x * R)]

theorem outside_not_inGrid2 (R : ℕ) (p : Particle2) (hh : 0 < p.h) (hR : 0 < R)
    (hout : outsideGrid2 R p) : ¬ inGrid2 R p := by
  have hRq : (0 : ℚ) < R := by exact_mod_cast hR
  have hs : 0 < support2 R p := by
    unfold support2 kernel_gamma
    positivity
  rintro ⟨h0x, h1x, h0y, h1y⟩
  rcases hout with h | h | h | h <;> linarith

theorem outside_contrib2_zero (R : ℕ) (p : Particle2) (hh : 0 < p.h) (hR : 0 < R)
    (hout : outsideGrid2 R p) (c : Fin R × Fin R) : contrib2 R p c = 0 := by
  unfold contrib2
  apply depositG_zero
  · exact outside_not_covered2 R p hh hR hout
  · intro c₁ hc₁
    exact outside_not_inGrid2 R p hh hR hout hc₁.1

/-- C6: for every backend of the registry (reference serial, parallel, GPU,
histogram) a particle with positive smoothing length whose coordinates and
kernel footprint lie entirely outside `[0,resolution)` contributes exactly
zero to the output grid — prepending it leaves every backend's grid
unchanged — and the rasterization call raises no failure (the GPU backend
taken on a system where it is available). -/
theorem outside_particle_no_contribution (R nt : ℕ) (p : Particle2)
    (ps : List Particle2) (hh : 0 < p.h) (hR : 0 < R) (hout : outsideGrid2 R p) :
    (∀ c, contrib2 R p c = 0)
    ∧ (∀ b : BackendName,
        backends true nt b (p :: ps) R = backends true nt b ps R
          ∧ isOk (backends true nt b (p :: ps) R) = true) := by
  have hzero := outside_contrib2_zero R p hh hR hout
  have hser : scatter (p :: ps) R = scatter ps R := by
    funext c
    unfold scatter
    rw [rasterize_cons, hzero c, zero_add]
  have hpar : scatter_parallel nt (p :: ps) R = scatter_parallel nt ps R := by
    unfold scatter_parallel
    rw [rasterize_par_eq, rasterize_par_eq]
    exact hser
  have hhist : histogram_scatter (p :: ps) R = histogram_scatter ps R := by
    funext c
    unfold histogram_scatter
    rw [rasterize_cons]
    have : contribHist R p c = 0 := by
      unfold contribHist
      rw [if_neg]
      rintro ⟨hin, -⟩
      exact outside_not_inGrid2 R p hh hR hout hin
    rw [this, zero_add]
  refine ⟨hzero, ?_⟩
  intro b
  cases b
  · exact ⟨by simp [backends, hser], by simp [backends, isOk]⟩
  · exact ⟨by simp [backends, hpar], by simp [backends, isOk]⟩
  · exact ⟨by simp [backends, hser], by simp [backends, isOk]⟩
  · exact ⟨by simp [backends, hhist], by simp [backends, isOk]⟩

def outsideParticle2 : Particle2 := ⟨-10, 1 / 2, 1, 1 / 10⟩

theorem outside_particle_no_contribution_witness :
    (0 < outsideParticle2.h ∧ 0 < (4 : ℕ) ∧ outsideGrid2 4 outsideParticle2)
    ∧ ((∀ c, contrib2 4 outsideParticle2 c = 0)
      ∧ (∀ b : BackendName,
          backends true 2 b (outsideParticle2 :: []) 4 = backends true 2 b [] 4
            ∧ isOk (backends true 2 b (outsideParticle2 :: []) 4) = true)) :=
  ⟨⟨by norm_num [outsideParticle2], by norm_num, by
      unfold outsideGrid2 support2 kernel_gamma outsideParticle2
      norm_num⟩,
    outside_particle_no_contribution 4 2 outsideParticle2 []
      (by norm_num [outsideParticle2]) (by norm_num)
      (by
        unfold outsideGrid2 support2 kernel_gamma outsideParticle2
        norm_num)⟩

/-- Modelled from the spec: the unit/cosmology tag carried by a named field
of the snapshot data source — its comoving/physical flag and its cosmological
scale-factor exponent. -/
structure FieldTag where
  comoving : Bool
  aExp : ℤ
deriving DecidableEq

/-- Modelled from the spec: the gas particle data consumed by the render
entry points — the particle arrays, the simulation box size, and the
unit/cosmology tags of the coordinates, smoothing lengths and the projectable
quantities. -/
structure GasDataset where
  boxsize : ℚ
  parts : List Particle3
  coordinates : FieldTag
  smoothing_lengths : FieldTag
  masses : FieldTag
  densities : FieldTag
deriving DecidableEq

/-- Modelled from the spec: the quantities the field dispatcher can project. -/
inductive Quantity : Type where
  | masses : Quantity
  | densities : Quantity
deriving DecidableEq

/-- Modelled from the spec: the default projected quantity is the particle's
mass itself. -/
def resolveQ : Option Quantity → Quantity
  | none => Quantity.masses
  | some q => q

def qTag (ds : GasDataset) : Quantity → FieldTag
  | Quantity.masses => ds.masses
  | Quantity.densities => ds.densities

/-- Modelled from the spec: mass-based weights are dimensionless with respect
to the frame; density-like derived quantities are not. -/
def qDensityLike : Quantity → Bool
  | Quantity.masses => false
  | Quantity.densities => true

def frameName (comoving : Bool) : String :=
  if comoving then "comoving" else "physical"

/-- Modelled from the spec: the frame-compatibility rule of the field
dispatcher — coordinates and smoothing lengths must share one
comoving/physical flag, and a density-like projected quantity must match the
coordinate frame exactly; a mismatch fails with a descriptive
frame-incompatibility error naming the coordinate frame. -/
def checkFrames (ds : GasDataset) (q : Quantity) : Except VisError Unit :=
  if ds.smoothing_lengths.comoving ≠ ds.coordinates.comoving then
    Except.error (VisError.frameIncompat
      ("smoothing_lengths not compatible with "
        ++ frameName ds.coordinates.comoving ++ " coordinates"))
  else if qDensityLike q ∧ (qTag ds q).comoving ≠ ds.coordinates.comoving then
    Except.error (VisError.frameIncompat
      ("projected quantity not compatible with "
        ++ frameName ds.coordinates.comoving ++ " coordinates"))
  else
    Except.ok ()

/-- Modelled from the spec: a requested sub-region of the simulation box,
given as per-axis bounds. -/
structure Region2 where
  x0 : ℚ
  x1 : ℚ
  y0 : ℚ
  y1 : ℚ
deriving DecidableEq

/-- Modelled from the spec: region/grid mapper validation — a degenerate
region (min ≥ max on some axis) or a zero resolution is a configuration
error, failing fast before any computation. -/
def checkRegion (r : Region2) (R : ℕ) : Except VisError Unit :=
  if r.x1 ≤ r.x0 ∨ r.y1 ≤ r.y0 then
    Except.error (VisError.configError "degenerate region bounds")
  else if R = 0 then
    Except.error (VisError.configError "invalid resolution")
  else
    Except.ok ()

/-- Modelled from the spec: a missing region argument means the full
simulation box. -/
def regionOrBox (bs : ℚ) : Option Region2 → Region2
  | none => ⟨0, bs, 0, bs⟩
  | some r => r

/-- Modelled from the spec: periodic wrap of a coordinate against the box
size. -/
def wrapQ (bs v : ℚ) : ℚ := v - bs * ⌊v / bs⌋

/-- Modelled from the spec: the region/grid mapper — shift by the region
origin, wrap periodically against the box, and scale by independent per-axis
scale factors into the `[0,1)` space consumed by the rasterizer. -/
def mapParticle2 (r : Region2) (bs : ℚ) (p : Particle2) : Particle2 :=
  ⟨wrapQ bs (p.x - r.x0) / (r.x1 - r.x0), wrapQ bs (p.y - r.y0) / (r.y1 - r.y0),
    p.m, p.h / (r.x1 - r.x0)⟩

def mapParticle3 (r : Region2) (bs : ℚ) (p : Particle3) : Particle3 :=
  ⟨wrapQ bs (p.x - r.x0) / (r.x1 - r.x0), wrapQ bs (p.y - r.y0) / (r.y1 - r.y0),
    p.z, p.m, p.h / (r.x1 - r.x0)⟩

def toP2 (p : Particle3) : Particle2 := ⟨p.x, p.y, p.m, p.h⟩

/-- Modelled from the spec: the output grid wrapped with the unit/cosmology
metadata inherited from the projected quantity and the coordinates. -/
structure RenderResult (G : Type) where
  comoving : Bool
  cosmoExp : ℤ
  grid : G

/-- Modelled from the spec: the 2D projection render entry point — dispatch
the projected quantity, enforce frame compatibility, validate the region,
then rasterize; the output scale-factor exponent divides by length², so it is
the quantity exponent minus twice the coordinate exponent. -/
def project_gas (ds : GasDataset) (R : ℕ) (q : Option Quantity)
    (region : Option Region2) : Except VisError (RenderResult (Grid2 R)) :=
  let qq := resolveQ q
  let r := regionOrBox ds.boxsize region
  match checkFrames ds qq with
  | Except.error e => Except.error e
  | Except.ok _ =>
    match checkRegion r R with
    | Except.error e => Except.error e
    | Except.ok _ =>
      Except.ok ⟨ds.coordinates.comoving,
        (qTag ds qq).aExp - 2 * ds.coordinates.aExp,
        scatter ((ds.parts.map toP2).map (mapParticle2 r ds.boxsize)) R⟩

/-- Modelled from the spec: the 2D slice render entry point; sampling a
volume density divides by length³, so the output scale-factor exponent is the
quantity exponent minus three times the coordinate exponent. -/
def slice_gas (ds : GasDataset) (R : ℕ) (zs : ℚ) (q : Option Quantity)
    (region : Option Region2) : Except VisError (RenderResult (Grid2 R)) :=
  let qq := resolveQ q
  let r := regionOrBox ds.boxsize region
  match checkFrames ds qq with
  | Except.error e => Except.error e
  | Except.ok _ =>
    match checkRegion r R with
    | Except.error e => Except.error e
    | Except.ok _ =>
      Except.ok ⟨ds.coordinates.comoving,
        (qTag ds qq).aExp - 3 * ds.coordinates.aExp,
        slice_scatter (ds.parts.map (mapParticle3 r ds.boxsize)) zs R⟩

/-- Modelled from the spec: the 3D volume render entry point (exponent
divides by length³ as for the slice). -/
def render_gas (ds : GasDataset) (R : ℕ) (q : Option Quantity) :
    Except VisError (RenderResult (Grid3 R)) :=
  let qq := resolveQ q
  match checkFrames ds qq with
  | Except.error e => Except.error e
  | Except.ok _ =>
    if R = 0 then Except.error (VisError.configError "invalid resolution")
    else
      Except.ok ⟨ds.coordinates.comoving,
        (qTag ds qq).aExp - 3 * ds.coordinates.aExp,
        volume_scatter ds.parts R⟩

/-- The cosmological scale-factor exponent of a successful render, when the
call succeeded. -/
def resultExp {G : Type} : Except VisError (RenderResult G) → Option ℤ
  | Except.ok r => some r.cosmoExp
  | Except.error _ => none

/-- The comoving flag of a successful render, when the call succeeded. -/
def resultComoving {G : Type} : Except VisError (RenderResult G) → Option Bool
  | Except.ok r => some r.comoving
  | Except.error _ => none

/-- A message names the comoving or the physical frame. -/
def namesFrame (msg : String) : Prop :=
  (∃ a b : String, msg = a ++ "comoving" ++ b)
    ∨ (∃ a b : String, msg = a ++ "physical" ++ b)

theorem namesFrame_concat (a b : String) (c : Bool) : namesFrame (a ++ frameName c ++ b) := by
  unfold namesFrame frameName
  cases c
  · right
    exact ⟨a, b, rfl⟩
  · left
    exact ⟨a, b, rfl⟩

theorem checkFrames_densities_mismatch (ds : GasDataset)
    (hq : ds.densities.comoving ≠ ds.coordinates.comoving) :
    ∃ msg, checkFrames ds Quantity.densities
        = Except.error (VisError.frameIncompat msg) ∧ namesFrame msg := by
  unfold checkFrames
  by_cases hs : ds.smoothing_lengths.comoving ≠ ds.coordinates.comoving
  · rw [if_pos hs]
    exact ⟨_, rfl, namesFrame_concat _ _ _⟩
  · rw [if_neg hs, if_pos (show qDensityLike Quantity.densities
        ∧ (qTag ds Quantity.densities).comoving ≠ ds.coordinates.comoving from ⟨rfl, hq⟩)]
    exact ⟨_, rfl, namesFrame_concat _ _ _⟩

/-- C3: every render call projecting the density-like quantity whose
comoving/physical flag differs from the coordinate frame's fails with a
frame-incompatibility error whose message names "comoving" or "physical",
returning an error and no partial grid, for projection, slice and volume. -/
theorem density_frame_mismatch_fails (ds : GasDataset) (R : ℕ) (zs : ℚ)
    (region : Option Region2)
    (hq : ds.densities.comoving ≠ ds.coordinates.comoving) :
    (∃ msg, project_gas ds R (some Quantity.densities) region
        = Except.error (VisError.frameIncompat msg) ∧ namesFrame msg)
    ∧ (∃ msg, slice_gas ds R zs (some Quantity.densities) region
        = Except.error (VisError.frameIncompat msg) ∧ namesFrame msg)
    ∧ (∃ msg, render_gas ds R (some Quantity.densities)
        = Except.error (VisError.frameIncompat msg) ∧ namesFrame msg) := by
  obtain ⟨msg, hmsg, hname⟩ := checkFrames_densities_mismatch ds hq
  refine ⟨⟨msg, ?_, hname⟩, ⟨msg, ?_, hname⟩, ⟨msg, ?_, hname⟩⟩
  · simp only [project_gas, resolveQ, hmsg]
  · simp only [slice_gas, resolveQ, hmsg]
  · simp only [render_gas, resolveQ, hmsg]

def dsDensPhysical : GasDataset :=
  ⟨1, [], ⟨true, 1⟩, ⟨true, 1⟩, ⟨true, 0⟩, ⟨false, -3⟩⟩

theorem density_frame_mismatch_fails_witness :
    (dsDensPhysical.densities.comoving ≠ dsDensPhysical.coordinates.comoving)
    ∧ ((∃ msg, project_gas dsDensPhysical 4 (some Quantity.densities) none
        = Except.error (VisError.frameIncompat msg) ∧ namesFrame msg)
      ∧ (∃ msg, slice_gas dsDensPhysical 4 (1 / 2) (some Quantity.densities) none
        = Except.error (VisError.frameIncompat msg) ∧ namesFrame msg)
      ∧ (∃ msg, render_gas dsDensPhysical 4 (some Quantity.densities)
        = Except.error (VisError.frameIncompat msg) ∧ namesFrame msg)) :=
  ⟨by simp [dsDensPhysical],
    density_frame_mismatch_fails dsDensPhysical 4 (1 / 2) none (by simp [dsDensPhysical])⟩

theorem checkFrames_masses_ok (ds : GasDataset)
    (hcoh : ds.smoothing_lengths.comoving = ds.coordinates.comoving) :
    checkFrames ds Quantity.masses = Except.ok () := by
  unfold checkFrames
  rw [if_neg (by simp [hcoh]), if_neg (by simp [qDensityLike])]

theorem checkRegion_box_ok (bs : ℚ) (R : ℕ) (hbs : 0 < bs) (hR : 0 < R) :
    checkRegion ⟨0, bs, 0, bs⟩ R = Except.ok () := by
  unfold checkRegion
  rw [if_neg, if_neg]
  · omega
  · simp only [not_or]
    constructor <;> simp <;> linarith

/-- C5: every render call that projects plain mass — including the default
when no quantity is named — succeeds regardless of any comoving/physical
mismatch between the projected masses and the coordinate frame (the
coordinates and smoothing lengths sharing one frame, with a valid box size
and resolution), because the mass weight is frame-dimensionless. -/
theorem mass_projection_tolerates_mismatch (ds : GasDataset) (R : ℕ) (zs : ℚ)
    (hcoh : ds.smoothing_lengths.comoving = ds.coordinates.comoving)
    (hbs : 0 < ds.boxsize) (hR : 0 < R) :
    isOk (project_gas ds R none none) = true
    ∧ isOk (project_gas ds R (some Quantity.masses) none) = true
    ∧ isOk (slice_gas ds R zs none none) = true
    ∧ isOk (slice_gas ds R zs (some Quantity.masses) none) = true
    ∧ isOk (render_gas ds R none) = true
    ∧ isOk (render_gas ds R (some Quantity.masses)) = true := by
  have hcf := checkFrames_masses_ok ds hcoh
  have hcr := checkRegion_box_ok ds.boxsize R hbs hR
  refine ⟨?_, ?_, ?_, ?_, ?_, ?_⟩
  · simp only [project_gas, resolveQ, regionOrBox, hcf, hcr, isOk]
  · simp only [project_gas, resolveQ, regionOrBox, hcf, hcr, isOk]
  · simp only [slice_gas, resolveQ, regionOrBox, hcf, hcr, isOk]
  · simp only [slice_gas, resolveQ, regionOrBox, hcf, hcr, isOk]
  · simp only [render_gas, resolveQ, hcf, if_neg (by omega : ¬ R = 0), isOk]
  · simp only [render_gas, resolveQ, hcf, if_neg (by omega : ¬ R = 0), isOk]

def dsMassPhysical : GasDataset :=
  ⟨1, [], ⟨true, 1⟩, ⟨true, 1⟩, ⟨false, 0⟩, ⟨true, -3⟩⟩

theorem mass_projection_tolerates_mismatch_witness :
    (dsMassPhysical.smoothing_lengths.comoving = dsMassPhysical.coordinates.comoving
      ∧ dsMassPhysical.masses.comoving ≠ dsMassPhysical.coordinates.comoving
      ∧ 0 < dsMassPhysical.boxsize ∧ 0 < (4 : ℕ))
    ∧ (isOk (project_gas dsMassPhysical 4 none none) = true
      ∧ isOk (project_gas dsMassPhysical 4 (some Quantity.masses) none) = true
      ∧ isOk (slice_gas dsMassPhysical 4 (1 / 2) none none) = true
      ∧ isOk (slice_gas dsMassPhysical 4 (1 / 2) (some Quantity.masses) none) = true
      ∧ isOk (render_gas dsMassPhysical 4 none) = true
      ∧ isOk (render_gas dsMassPhysical 4 (some Quantity.masses)) = true) :=
  ⟨⟨rfl, by simp [dsMassPhysical], by norm_num [dsMassPhysical], by norm_num⟩,
    mass_projection_tolerates_mismatch dsMassPhysical 4 (1 / 2) rfl
      (by norm_num [dsMassPhysical]) (by norm_num)⟩

def dsComoving : GasDataset :=
  ⟨1, [], ⟨true, 1⟩, ⟨true, 1⟩, ⟨true, 0⟩, ⟨true, -3⟩⟩

/-- C4 counterexample: the slice entry point produces a 2D grid, yet on a
dataset with comoving coordinate exponent 1 its output scale-factor exponent
is −3, not the −2 the claim requires of every 2D-grid entry point. -/
theorem exponent_claim_counterexample :
    resultExp (slice_gas dsComoving 4 (1 / 2) (some Quantity.masses) none) = some (-3)
    ∧ dsComoving.coordinates.aExp = 1
    ∧ ¬ ((-3 : ℤ) = dsComoving.coordinates.aExp * (-2)) :=
  ⟨rfl, rfl, by decide⟩

/-- C4 amended: with standard tags (mass exponent 0, density exponent mass
exponent − 3) and coherent frames, projecting mass through the 2D projection
entry point yields output exponent = coordinate exponent × −2, in either
frame (the output inherits the coordinate frame's flag); the slice and volume
entry points yield coordinate exponent × −3; and projecting density instead
of mass adjusts the output exponent of every entry point by an additional −3. -/
theorem exponent_propagation_amended (ds : GasDataset) (R : ℕ) (zs : ℚ)
    (hcoh : ds.smoothing_lengths.comoving = ds.coordinates.comoving)
    (hdcoh : ds.densities.comoving = ds.coordinates.comoving)
    (hm : ds.masses.aExp = 0) (hd : ds.densities.aExp = ds.masses.aExp - 3)
    (hbs : 0 < ds.boxsize) (hR : 0 < R) :
    (resultExp (project_gas ds R (some Quantity.masses) none)
        = some (ds.coordinates.aExp * (-2))
      ∧ resultComoving (project_gas ds R (some Quantity.masses) none)
        = some ds.coordinates.comoving)
    ∧ resultExp (project_gas ds R (some Quantity.densities) none)
        = some (ds.coordinates.aExp * (-2) + (-3))
    ∧ resultExp (slice_gas ds R zs (some Quantity.masses) none)
        = some (ds.coordinates.aExp * (-3))
    ∧ resultExp (slice_gas ds R zs (some Quantity.densities) none)
        = some (ds.coordinates.aExp * (-3) + (-3))
    ∧ resultExp (render_gas ds R (some Quantity.masses))
        = some (ds.coordinates.aExp * (-3))
    ∧ resultExp (render_gas ds R (some Quantity.densities))
        = some (ds.coordinates.aExp * (-3) + (-3)) := by
  have hcfm := checkFrames_masses_ok ds hcoh
  have hcfd : checkFrames ds Quantity.densities = Except.ok () := by
    unfold checkFrames
    rw [if_neg (by simp [hcoh]), if_neg (by simp [qTag, hdcoh])]
  have hcr := checkRegion_box_ok ds.boxsize R hbs hR
  refine ⟨⟨?_, ?_⟩, ?_, ?_, ?_, ?_, ?_⟩
  · simp only [project_gas, resolveQ, regionOrBox, hcfm, hcr, resultExp, qTag]
    rw [hm]
    congr 1
    ring
  · simp only [project_gas, resolveQ, regionOrBox, hcfm, hcr, resultComoving]
  · simp only [project_gas, resolveQ, regionOrBox, hcfd, hcr, resultExp, qTag]
    rw [hd, hm]
    congr 1
    ring
  · simp only [slice_gas, resolveQ, regionOrBox, hcfm, hcr, resultExp, qTag]
    rw [hm]
    congr 1
    ring
  · simp only [slice_gas, resolveQ, regionOrBox, hcfd, hcr, resultExp, qTag]
    rw [hd, hm]
    congr 1
    ring
  · simp only [render_gas, resolveQ, hcfm, if_neg (by omega : ¬ R = 0), resultExp, qTag]
    rw [hm]
    congr 1
    ring
  · simp only [render_gas, resolveQ, hcfd, if_neg (by omega : ¬ R = 0), resultExp, qTag]
    rw [hd, hm]
    congr 1
    ring

theorem exponent_propagation_amended_witness :
    (dsComoving.smoothing_lengths.comoving = dsComoving.coordinates.comoving
      ∧ dsComoving.densities.comoving = dsComoving.coordinates.comoving
      ∧ dsComoving.masses.aExp = 0
      ∧ dsComoving.densities.aExp = dsComoving.masses.aExp - 3
      ∧ 0 < dsComoving.boxsize ∧ 0 < (4 : ℕ))
    ∧ resultExp (project_gas dsComoving 4 (some Quantity.masses) none)
        = some (dsComoving.coordinates.aExp * (-2)) :=
  ⟨⟨rfl, rfl, rfl, by decide, by norm_num [dsComoving], by norm_num⟩,
    ((exponent_propagation_amended dsComoving 4 (1 / 2) rfl rfl rfl (by decide)
      (by norm_num [dsComoving]) (by norm_num)).1).1⟩

/-- C7: rendering with a region argument equal to the full simulation box
produces the same call result — the same grid — as rendering with no region
argument, and rendering a tiny sub-region (0.1% of the box width) returns a
valid grid without raising any error, for the projection and slice entry
points. -/
theorem region_full_box_and_tiny (ds : GasDataset) (R : ℕ) (zs : ℚ)
    (hcoh : ds.smoothing_lengths.comoving = ds.coordinates.comoving)
    (hbs : 0 < ds.boxsize) (hR : 0 < R) :
    project_gas ds R none none
        = project_gas ds R none (some ⟨0, ds.boxsize, 0, ds.boxsize⟩)
    ∧ slice_gas ds R zs none none
        = slice_gas ds R zs none (some ⟨0, ds.boxsize, 0, ds.boxsize⟩)
    ∧ isOk (project_gas ds R none
        (some ⟨0, ds.boxsize / 1000, 0, ds.boxsize / 1000⟩)) = true
    ∧ isOk (slice_gas ds R zs none
        (some ⟨0, ds.boxsize / 1000, 0, ds.boxsize / 1000⟩)) = true := by
  have hcf := checkFrames_masses_ok ds hcoh
  have htiny : checkRegion ⟨0, ds.boxsize / 1000, 0, ds.boxsize / 1000⟩ R
      = Except.ok () := by
    have : 0 < ds.boxsize / 1000 := by positivity
    exact checkRegion_box_ok (ds.boxsize / 1000) R this hR
  refine ⟨rfl, rfl, ?_, ?_⟩
  · simp only [project_gas, resolveQ, regionOrBox, hcf, htiny, isOk]
  · simp only [slice_gas, resolveQ, regionOrBox, hcf, htiny, isOk]

theorem region_full_box_and_tiny_witness :
    (dsComoving.smoothing_lengths.comoving = dsComoving.coordinates.comoving
      ∧ 0 < dsComoving.boxsize ∧ 0 < (4 : ℕ))
    ∧ project_gas dsComoving 4 none none
        = project_gas dsComoving 4 none
            (some ⟨0, dsComoving.boxsize, 0, dsComoving.boxsize⟩) :=
  ⟨⟨rfl, by norm_num [dsComoving], by norm_num⟩,
    (region_full_box_and_tiny dsComoving 4 (1 / 2) rfl (by norm_num [dsComoving])
      (by norm_num)).1⟩

/-- C9: the region/grid mapper applies independent per-axis scale factors, so
a render call with a non-square region — different widths along the two axes —
succeeds and produces a valid grid, for the projection and slice entry
points; the mapped x coordinate is scaled by the x extent only and the mapped
y coordinate by the y extent only. -/
theorem nonsquare_region_ok (ds : GasDataset) (R : ℕ) (zs : ℚ) (r : Region2)
    (hcoh : ds.smoothing_lengths.comoving = ds.coordinates.comoving)
    (hx : r.x0 < r.x1) (hy : r.y0 < r.y1)
    (hnsq : r.x1 - r.x0 ≠ r.y1 - r.y0) (hR : 0 < R) :
    isOk (project_gas ds R none (some r)) = true
    ∧ isOk (slice_gas ds R zs none (some r)) = true
    ∧ (∀ p : Particle2, (mapParticle2 r ds.boxsize p).x
          = wrapQ ds.boxsize (p.x - r.x0) * (1 / (r.x1 - r.x0))
        ∧ (mapParticle2 r ds.boxsize p).y
          = wrapQ ds.boxsize (p.y - r.y0) * (1 / (r.y1 - r.y0))) := by
  have hcf := checkFrames_masses_ok ds hcoh
  have hcr : checkRegion r R = Except.ok () := by
    unfold checkRegion
    rw [if_neg, if_neg]
    · omega
    · simp only [not_or]
      constructor <;> linarith
  refine ⟨?_, ?_, ?_⟩
  · simp only [project_gas, resolveQ, regionOrBox, hcf, hcr, isOk]
  · simp only [slice_gas, resolveQ, regionOrBox, hcf, hcr, isOk]
  · intro p
    constructor <;> rw [mul_one_div] <;> rfl

theorem nonsquare_region_ok_witness :
    (dsComoving.smoothing_lengths.comoving = dsComoving.coordinates.comoving
      ∧ (0 : ℚ) < 1 / 1000 ∧ (1 / 4 : ℚ) < 3 / 4
      ∧ ((1 / 1000 : ℚ) - 0 ≠ 3 / 4 - 1 / 4) ∧ 0 < (4 : ℕ))
    ∧ isOk (project_gas dsComoving 4 none
        (some ⟨0, 1 / 1000, 1 / 4, 3 / 4⟩)) = true :=
  ⟨⟨rfl, by norm_num, by norm_num, by norm_num, by norm_num⟩,
    (nonsquare_region_ok dsComoving 4 (1 / 2) ⟨0, 1 / 1000, 1 / 4, 3 / 4⟩ rfl
      (by norm_num) (by norm_num) (by norm_num) (by norm_num)).1⟩

/-- C8: requesting the GPU backend on a system with no compatible device
fails with the unavailable-capability error, an error kind distinct from the
frame-incompatibility and configuration (computation) error kinds, so a
caller iterating over the backend registry can catch it and skip only that
backend while every other backend still returns its result. -/
theorem gpu_unavailable_distinguishable (nt R : ℕ) (ps : List Particle2) :
    backends false nt BackendName.gpu ps R
        = Except.error VisError.unavailableCapability
    ∧ skipUnavailable (backends false nt BackendName.gpu ps R) = none
    ∧ skipUnavailable (backends false nt BackendName.reference ps R)
        = some (backends false nt BackendName.reference ps R)
    ∧ skipUnavailable (backends false nt BackendName.parallel ps R)
        = some (backends false nt BackendName.parallel ps R)
    ∧ skipUnavailable (backends false nt BackendName.histogram ps R)
        = some (backends false nt BackendName.histogram ps R)
    ∧ (∀ s, VisError.unavailableCapability ≠ VisError.frameIncompat s)
    ∧ (∀ s, VisError.unavailableCapability ≠ VisError.configError s) := by
  refine ⟨rfl, rfl, rfl, rfl, rfl, ?_, ?_⟩ <;> intro s h <;> exact VisError.noConfusion h

/-- A physical unit, represented by its exponent vector over the five unyt
base units `g`, `cm`, `s`, `statA`, `K` imported by
`swiftsimio/metadata/unit/unit_fields.py`; the base units handed to
`generate_units` are arbitrary values of this type. -/
structure UnitDim where
  g : ℤ
  cm : ℤ
  s : ℤ
  statA : ℤ
  K : ℤ
deriving DecidableEq

def UnitDim.mul (a b : UnitDim) : UnitDim :=
  ⟨a.g + b.g, a.cm + b.cm, a.s + b.s, a.statA + b.statA, a.K + b.K⟩

def UnitDim.div (a b : UnitDim) : UnitDim :=
  ⟨a.g - b.g, a.cm - b.cm, a.s - b.s, a.statA - b.statA, a.K - b.K⟩

def UnitDim.npow (a : UnitDim) (n : ℕ) : UnitDim :=
  ⟨a.g * n, a.cm * n, a.s * n, a.statA * n, a.K * n⟩

def UnitDim.one : UnitDim := ⟨0, 0, 0, 0, 0⟩

/-- The `shared` dictionary of `generate_units`. -/
def shared_fields (m l t : UnitDim) : List (String × Option UnitDim) :=
  [("coordinates", some l), ("masses", some m), ("particle_ids", none),
    ("velocities", some (l.div t))]

/-- The `baryon` dictionary of `generate_units`. -/
def baryon_fields (m T : UnitDim) : List (String × Option UnitDim) :=
  [("element_abundance", none),
    ("maximal_temperature", some T),
    ("maximal_temperature_scale_factor", none),
    ("iron_mass_frac_from_sn1a", none),
    ("metal_mass_frac_from_agb", none),
    ("metal_mass_frac_from_snii", none),
    ("metal_mass_frac_from_sn1a", none),
    ("metallicity", none),
    ("smoothed_element_abundance", none),
    ("smoothed_iron_mass_frac_from_sn1a", none),
    ("smoothed_metallicity", none),
    ("total_mass_from_agb", some m),
    ("total_mass_from_snii", some m)]

/-- The `gas` dictionary of `generate_units` (its explicit entries followed
by the unpacked `shared` and `baryon` entries, in insertion order). -/
def gas_fields (m l t T : UnitDim) : List (String × Option UnitDim) :=
  [("density", some (m.div (l.npow 3))),
    ("entropy", some ((m.mul (l.npow 2)).div ((t.npow 2).mul T))),
    ("internal_energy", some ((m.mul (l.npow 2)).div (t.npow 2))),
    ("smoothing_length", some l),
    ("pressure", some (m.div (l.mul (t.npow 2)))),
    ("diffusion", none),
    ("SFR", some (m.div t)),
    ("temperature", some T),
    ("viscosity", none),
    ("specific_sfr", some (UnitDim.one.div t))]
  ++ shared_fields m l t ++ baryon_fields m T

/-- `generate_units` from `swiftsimio/metadata/unit/unit_fields.py`: builds
the per-particle-type unit dictionaries from the mass, length, time, current
and temperature base units. -/
def generate_units (m l t I T : UnitDim) :
    List (String × List (String × Option UnitDim)) :=
  [("gas", gas_fields m l t T),
    ("dark_matter", shared_fields m l t),
    ("stars", shared_fields m l t ++ baryon_fields m T),
    ("black_holes", shared_fields m l t)]

/-- C10: for every choice of base units, `generate_units` returns a mapping
with exactly the keys "gas", "dark_matter", "stars" and "black_holes"; each
of these maps "coordinates" to the length unit and "masses" to the mass unit;
and in the gas mapping "smoothing_length" carries the same unit as
"coordinates" (the length unit) while "density" carries mass / length³. -/
theorem generate_units_structure (m l t I T : UnitDim) :
    (generate_units m l t I T).map Prod.fst
        = ["gas", "dark_matter", "stars", "black_holes"]
    ∧ (((generate_units m l t I T).lookup "gas").bind
          (fun d => d.lookup "coordinates") = some (some l)
      ∧ ((generate_units m l t I T).lookup "dark_matter").bind
          (fun d => d.lookup "coordinates") = some (some l)
      ∧ ((generate_units m l t I T).lookup "stars").bind
          (fun d => d.lookup "coordinates") = some (some l)
      ∧ ((generate_units m l t I T).lookup "black_holes").bind
          (fun d => d.lookup "coordinates") = some (some l))
    ∧ (((generate_units m l t I T).lookup "gas").bind
          (fun d => d.lookup "masses") = some (some m)
      ∧ ((generate_units m l t I T).lookup "dark_matter").bind
          (fun d => d.lookup "masses") = some (some m)
      ∧ ((generate_units m l t I T).lookup "stars").bind
          (fun d => d.lookup "masses") = some (some m)
      ∧ ((generate_units m l t I T).lookup "black_holes").bind
          (fun d => d.lookup "masses") = some (some m))
    ∧ ((generate_units m l t I T).lookup "gas").bind
          (fun d => d.lookup "smoothing_length")
        = ((generate_units m l t I T).lookup "gas").bind
          (fun d => d.lookup "coordinates")
    ∧ ((generate_units m l t I T).lookup "gas").bind
          (fun d => d.lookup "smoothing_length") = some (some l)
    ∧ ((generate_units m l t I T).lookup "gas").bind
          (fun d => d.lookup "density") = some (some (m.div (l.npow 3))) :=
  ⟨rfl, ⟨rfl, rfl, rfl, rfl⟩, ⟨rfl, rfl, rfl, rfl⟩, rfl, rfl, rfl⟩

end Swiftsimio
